import Mathlib

/-!
Shallow embedding of the Smart-energy-meter firmware core
(`main/main.ino` together with the inlined `WebClient` class).

The embedding models one iteration ("tick") of `loop()` as a pure function
from an environment of external inputs (current `millis()`, WiFi status,
IR event, sensor drain values, HTTP responses) and a device state to a new
device state together with a trace of observable actions (WiFi maintenance,
HTTP requests, by-reference output writes inside `getRelayState`, sampler
updates, display refresh, hardware relay writes).

`WebClient::sendSensorData`, `WebClient::postRelayState` and
`WebClient::getRelayState` are translated statement by statement from the
source.  The hardware collaborators whose sources are not in the
repository snapshot (`PinConfig`, `IRHandler`) are modelled from the spec:
`PinConfig` is a pair of boolean relay outputs (Relay Authority), and a
fired IR event atomically writes a new pair of relay outputs and makes
`irHandler.update()` return `true`.
-/

namespace Meter

/-- Modulus of the 32-bit `unsigned long` arithmetic used by the timing
checks `(unsigned long)(millis() - previous...)`. -/
def U32 : Nat := 4294967296

/-- 32-bit wrapping subtraction `a - b` on `unsigned long` values. -/
def usub32 (a b : Nat) : Nat := (a % U32 + (U32 - b % U32)) % U32

/-- `printPeriod` (ms): display/readings cadence. -/
def printPeriod : Nat := 1500

/-- `webSendPeriod` (ms): telemetry push cadence. -/
def webSendPeriod : Nat := 10000

/-- `relayPollPeriod` (ms): server relay poll cadence. -/
def relayPollPeriod : Nat := 3000

/-- `reconnectInterval` (ms) of `WebClient`. -/
def reconnectInterval : Nat := 30000

/-- The JSON body of a telemetry push (`/api/data`).  Readings are floats in
the firmware; they are modelled as rationals because every claim is about
which values flow where, not about rounding. -/
structure Telemetry where
  voltage : ℚ
  current1 : ℚ
  current2 : ℚ
  current3 : ℚ
  totalCurrent : ℚ
  power1 : ℚ
  power2 : ℚ
  totalPower : ℚ
deriving DecidableEq, Repr

/-- Observable actions of one loop tick, in program order. -/
inductive Action where
  /-- `webClient.maintain()` ran. -/
  | maintain : Action
  /-- HTTP `POST /api/relay/state` with body `{relay1, relay2}`. -/
  | httpPostRelay (relay1 relay2 : Bool) : Action
  /-- HTTP `POST /api/data` with the given telemetry body. -/
  | httpPostData (t : Telemetry) : Action
  /-- HTTP `GET /api/relay/state`. -/
  | httpGetRelay : Action
  /-- `getRelayState` wrote `v` to its by-reference `relay1State` output. -/
  | writeOut1 (v : Bool) : Action
  /-- `getRelayState` wrote `v` to its by-reference `relay2State` output. -/
  | writeOut2 (v : Bool) : Action
  /-- `sensorN.update()` ran. -/
  | samplerUpdate (n : Nat) : Action
  /-- The readings/display block ran (`display.showCurrents`). -/
  | displayRefresh : Action
  /-- `pinConfig.setRelay1(v)`: hardware write of relay 1. -/
  | setRelay1 (v : Bool) : Action
  /-- `pinConfig.setRelay2(v)`: hardware write of relay 2. -/
  | setRelay2 (v : Bool) : Action
deriving DecidableEq, Repr

/-- Device state: the module-level globals of `main.ino`, the `connected`
flag and reconnect timestamp of `WebClient`, and the Relay Authority
(physical relay outputs held by `PinConfig`). -/
structure MeterState where
  previousMillis : Nat
  previousWebMillis : Nat
  previousRelayPoll : Nat
  lastVoltage : ℚ
  lastCurrent1 : ℚ
  lastCurrent2 : ℚ
  lastCurrent3 : ℚ
  lastTotalCurrent : ℚ
  lastPower1 : ℚ
  lastPower2 : ℚ
  lastTotalPower : ℚ
  previousRelay1State : Bool
  previousRelay2State : Bool
  relay1Hw : Bool
  relay2Hw : Bool
  connected : Bool
  lastReconnectAttempt : Nat
deriving DecidableEq, Repr

/-- External inputs of one tick: `millis()`, the WiFi link status
(`WiFi.status() == WL_CONNECTED`), the IR event (if `irHandler.update()`
fires, the new relay pair it wrote), the values the samplers would drain,
and the HTTP responses the server would give to each request. -/
structure TickEnv where
  now : Nat
  wifiOk : Bool
  irEvent : Option (Bool × Bool)
  current1 : ℚ
  current2 : ℚ
  current3 : ℚ
  voltage : ℚ
  postRelayStatus : Int
  sendDataStatus : Int
  getRelayStatus : Int
  /-- `deserializeJson` outcome of the GET body: `none` on parse error,
  otherwise the extracted `relay1`/`relay2` booleans. -/
  getRelayBody : Option (Bool × Bool)
deriving Repr

/-- Result of `WebClient::getRelayState`: the returned `changed` flag, the
final values of the two by-reference parameters, and the events performed. -/
structure GetRelayResult where
  changed : Bool
  relay1State : Bool
  relay2State : Bool
  events : List Action
deriving DecidableEq, Repr

/-- `WebClient::sendSensorData`.  Returns the `bool` result and the HTTP
activity performed.  When `connected` is false it returns `false` at once
with no HTTP activity; otherwise the POST is issued and the result is
`httpResponseCode > 0`. -/
def sendSensorData (connected : Bool) (status : Int) (t : Telemetry) :
    Bool × List Action :=
  if !connected then (false, [])
  else (decide (0 < status), [Action.httpPostData t])

/-- `WebClient::postRelayState`.  Returns the `bool` result and the HTTP
activity performed.  When `connected` is false it returns `false` at once
with no HTTP activity; otherwise the POST is issued and the result is
`httpResponseCode == 200`. -/
def postRelayState (connected : Bool) (status : Int) (r1 r2 : Bool) :
    Bool × List Action :=
  if !connected then (false, [])
  else (decide (status = 200), [Action.httpPostRelay r1 r2])

/-- `WebClient::getRelayState`, statement by statement: bail out when not
connected; issue the GET; on status 200 parse the body; on parse success
compare each fetched field with the by-reference parameter, overwriting it
and setting `changed` only when it differs; every other path returns
`false` with the parameters untouched. -/
def getRelayState (connected : Bool) (status : Int)
    (body : Option (Bool × Bool)) (relay1State relay2State : Bool) :
    GetRelayResult :=
  if !connected then
    { changed := false, relay1State := relay1State,
      relay2State := relay2State, events := [] }
  else if status = 200 then
    match body with
    | some (newRelay1, newRelay2) =>
      let r1 := if newRelay1 != relay1State then newRelay1 else relay1State
      let w1 : List Action :=
        if newRelay1 != relay1State then [Action.writeOut1 newRelay1] else []
      let c1 : Bool := newRelay1 != relay1State
      let r2 := if newRelay2 != relay2State then newRelay2 else relay2State
      let w2 : List Action :=
        if newRelay2 != relay2State then [Action.writeOut2 newRelay2] else []
      let c2 : Bool := newRelay2 != relay2State
      { changed := c1 || c2, relay1State := r1, relay2State := r2,
        events := Action.httpGetRelay :: (w1 ++ w2) }
    | none =>
      { changed := false, relay1State := relay1State,
        relay2State := relay2State, events := [Action.httpGetRelay] }
  else
    { changed := false, relay1State := relay1State,
      relay2State := relay2State, events := [Action.httpGetRelay] }

/-- `WebClient::isConnected()`: `connected && (WiFi.status() == WL_CONNECTED)`. -/
def isConnected (wifiOk connected : Bool) : Bool := connected && wifiOk

/-- `WebClient::maintain()`: on link loss clear `connected` and retry no
more often than `reconnectInterval`; on link recovery set `connected`. -/
def maintainPhase (env : TickEnv) (s : MeterState) :
    MeterState × List Action :=
  if !env.wifiOk then
    if usub32 env.now s.lastReconnectAttempt ≥ reconnectInterval then
      ({ s with connected := false, lastReconnectAttempt := env.now },
       [Action.maintain])
    else
      ({ s with connected := false }, [Action.maintain])
  else
    ({ s with connected := true }, [Action.maintain])

/-- The IR branch of `loop()`.  `irHandler.update()` returning true means
the IR remote already wrote the relays (modelled from the spec: the Local
Control Adapter writes Relay Authority, then signals the change); the loop
then reads the relay states back, posts them when `isConnected()`, and
updates the tracking variables. -/
def irPhase (env : TickEnv) (s : MeterState) : MeterState × List Action :=
  match env.irEvent with
  | none => (s, [])
  | some (a, b) =>
    let s1 := { s with relay1Hw := a, relay2Hw := b }
    let tr :=
      if isConnected env.wifiOk s1.connected then
        (postRelayState s1.connected env.postRelayStatus s1.relay1Hw
          s1.relay2Hw).2
      else []
    ({ s1 with previousRelay1State := s1.relay1Hw,
               previousRelay2State := s1.relay2Hw }, tr)

/-- The three unconditional `sensorN.update()` calls. -/
def samplerPhase (_env : TickEnv) (s : MeterState) :
    MeterState × List Action :=
  (s, [Action.samplerUpdate 1, Action.samplerUpdate 2, Action.samplerUpdate 3])

/-- The readings/display block of `loop()`: on its cadence, drain the
samplers into the `last*` globals, derive the totals and powers, and
refresh the LCD. -/
def displayPhase (env : TickEnv) (s : MeterState) :
    MeterState × List Action :=
  if usub32 env.now s.previousMillis ≥ printPeriod then
    let c1 := env.current1
    let c2 := env.current2
    let c3 := env.current3
    let v := env.voltage
    let tc := c1 + c2
    let p1 := v * c1
    let p2 := v * c2
    ({ s with previousMillis := env.now,
              lastCurrent1 := c1, lastCurrent2 := c2, lastCurrent3 := c3,
              lastVoltage := v, lastTotalCurrent := tc,
              lastPower1 := p1, lastPower2 := p2, lastTotalPower := p1 + p2 },
     [Action.displayRefresh])
  else (s, [])

/-- The telemetry body built at a push: the current `last*` globals. -/
def mkTelemetry (s : MeterState) : Telemetry :=
  { voltage := s.lastVoltage, current1 := s.lastCurrent1,
    current2 := s.lastCurrent2, current3 := s.lastCurrent3,
    totalCurrent := s.lastTotalCurrent, power1 := s.lastPower1,
    power2 := s.lastPower2, totalPower := s.lastTotalPower }

/-- The telemetry block of `loop()`: on its cadence, reset the deadline,
then push the snapshot globals when `isConnected()`. -/
def telemetryPhase (env : TickEnv) (s : MeterState) :
    MeterState × List Action :=
  if usub32 env.now s.previousWebMillis ≥ webSendPeriod then
    let s1 := { s with previousWebMillis := env.now }
    if isConnected env.wifiOk s1.connected then
      (s1, (sendSensorData s1.connected env.sendDataStatus (mkTelemetry s1)).2)
    else (s1, [])
  else (s, [])

/-- The relay-poll block of `loop()`: on its cadence, reset the deadline;
when `isConnected()`, read the local relay states, call `getRelayState`,
and only when it reports a change write both relays and update the
tracking variables. -/
def pollPhase (env : TickEnv) (s : MeterState) : MeterState × List Action :=
  if usub32 env.now s.previousRelayPoll ≥ relayPollPeriod then
    let s1 := { s with previousRelayPoll := env.now }
    if isConnected env.wifiOk s1.connected then
      let g := getRelayState s1.connected env.getRelayStatus env.getRelayBody
        s1.relay1Hw s1.relay2Hw
      if g.changed then
        ({ s1 with relay1Hw := g.relay1State, relay2Hw := g.relay2State,
                   previousRelay1State := g.relay1State,
                   previousRelay2State := g.relay2State },
         g.events ++ [Action.setRelay1 g.relay1State,
                      Action.setRelay2 g.relay2State])
      else (s1, g.events)
    else (s1, [])
  else (s, [])

/-- Everything of one `loop()` iteration that precedes the relay poll:
maintenance, IR branch, sampler updates, display block, telemetry block,
in program order. -/
def prePoll (env : TickEnv) (s : MeterState) : MeterState × List Action :=
  let m := maintainPhase env s
  let i := irPhase env m.1
  let u := samplerPhase env i.1
  let d := displayPhase env u.1
  let t := telemetryPhase env d.1
  (t.1, m.2 ++ (i.2 ++ (u.2 ++ (d.2 ++ t.2))))

/-- One full iteration of `loop()`. -/
def loopTick (env : TickEnv) (s : MeterState) : MeterState × List Action :=
  let p := prePoll env s
  let q := pollPhase env p.1
  (q.1, p.2 ++ q.2)

/-- The state just after the display block of a tick (what the telemetry
block of the same tick sees). -/
def snapshotAfterDisplay (env : TickEnv) (s : MeterState) : MeterState :=
  (displayPhase env
    (samplerPhase env (irPhase env (maintainPhase env s).1).1).1).1

/-- A run of consecutive loop iterations, concatenating the traces. -/
def run : List TickEnv → MeterState → MeterState × List Action
  | [], s => (s, [])
  | e :: es, s =>
    let p := loopTick e s
    let q := run es p.1
    (q.1, p.2 ++ q.2)

/-- The state after `setup()`: timing deadlines and the telemetry globals
are zero-initialised, the tracking variables are `false`; the physical
relay boot state and the post-`begin()` connectivity are parameters
(their initialisation lives in `PinConfig`/`WebClient::begin`). -/
def initState (r1 r2 c : Bool) : MeterState :=
  { previousMillis := 0, previousWebMillis := 0, previousRelayPoll := 0,
    lastVoltage := 0, lastCurrent1 := 0, lastCurrent2 := 0,
    lastCurrent3 := 0, lastTotalCurrent := 0, lastPower1 := 0,
    lastPower2 := 0, lastTotalPower := 0,
    previousRelay1State := false, previousRelay2State := false,
    relay1Hw := r1, relay2Hw := r2, connected := c,
    lastReconnectAttempt := 0 }

/-- The all-zero telemetry body (initialisation values of the globals). -/
def zeroTelemetry : Telemetry :=
  { voltage := 0, current1 := 0, current2 := 0, current3 := 0,
    totalCurrent := 0, power1 := 0, power2 := 0, totalPower := 0 }

/-- Network-issuing actions (HTTP requests). -/
def isNetOp : Action → Bool
  | Action.httpPostRelay _ _ => true
  | Action.httpPostData _ => true
  | Action.httpGetRelay => true
  | _ => false

/-- Recogniser for the IR-triggered relay-state push. -/
def isPostRelay : Action → Bool
  | Action.httpPostRelay _ _ => true
  | _ => false

/-! ### Phase characterisation lemmas -/

theorem maintainPhase_eq (env : TickEnv) (s : MeterState) :
    maintainPhase env s =
      ({ s with
          connected := env.wifiOk,
          lastReconnectAttempt :=
            if env.wifiOk = false ∧
                usub32 env.now s.lastReconnectAttempt ≥ reconnectInterval
            then env.now else s.lastReconnectAttempt },
       [Action.maintain]) := by
  unfold maintainPhase
  cases h : env.wifiOk
  · simp only [h, Bool.not_false, if_true, Bool.false_eq_true, not_false_eq_true,
      true_and]
    split <;> simp_all
  · simp [h]

theorem irPhase_none (env : TickEnv) (s : MeterState)
    (h : env.irEvent = none) : irPhase env s = (s, []) := by
  unfold irPhase
  rw [h]

theorem irPhase_some (env : TickEnv) (s : MeterState) (a b : Bool)
    (h : env.irEvent = some (a, b)) :
    irPhase env s =
      ({ s with
          relay1Hw := a, relay2Hw := b,
          previousRelay1State := a, previousRelay2State := b },
       if s.connected && env.wifiOk then [Action.httpPostRelay a b]
       else []) := by
  unfold irPhase
  rw [h]
  simp only [isConnected, postRelayState]
  cases hc : s.connected <;> cases hw : env.wifiOk <;> simp

theorem maintainPhase_snd (env : TickEnv) (s : MeterState) :
    (maintainPhase env s).2 = [Action.maintain] := by
  rw [maintainPhase_eq]

theorem irPhase_eq (env : TickEnv) (s : MeterState) :
    irPhase env s =
      (match env.irEvent with
       | none => (s, [])
       | some (a, b) =>
         ({ s with
             relay1Hw := a, relay2Hw := b,
             previousRelay1State := a, previousRelay2State := b },
          if s.connected && env.wifiOk then [Action.httpPostRelay a b]
          else [])) := by
  rcases hir : env.irEvent with _ | ⟨a, b⟩
  · rw [irPhase_none env s hir]
  · rw [irPhase_some env s a b hir]

theorem displayPhase_due (env : TickEnv) (s : MeterState)
    (h : usub32 env.now s.previousMillis ≥ printPeriod) :
    displayPhase env s =
      ({ s with
          previousMillis := env.now,
          lastCurrent1 := env.current1, lastCurrent2 := env.current2,
          lastCurrent3 := env.current3, lastVoltage := env.voltage,
          lastTotalCurrent := env.current1 + env.current2,
          lastPower1 := env.voltage * env.current1,
          lastPower2 := env.voltage * env.current2,
          lastTotalPower := env.voltage * env.current1 +
            env.voltage * env.current2 },
       [Action.displayRefresh]) := by
  unfold displayPhase
  rw [if_pos h]

theorem displayPhase_not_due (env : TickEnv) (s : MeterState)
    (h : ¬ usub32 env.now s.previousMillis ≥ printPeriod) :
    displayPhase env s = (s, []) := by
  unfold displayPhase
  rw [if_neg h]

theorem telemetryPhase_not_due (env : TickEnv) (s : MeterState)
    (h : ¬ usub32 env.now s.previousWebMillis ≥ webSendPeriod) :
    telemetryPhase env s = (s, []) := by
  unfold telemetryPhase
  rw [if_neg h]

theorem telemetryPhase_due (env : TickEnv) (s : MeterState)
    (h : usub32 env.now s.previousWebMillis ≥ webSendPeriod) :
    telemetryPhase env s =
      ({ s with previousWebMillis := env.now },
       if s.connected && env.wifiOk then
         [Action.httpPostData (mkTelemetry s)]
       else []) := by
  unfold telemetryPhase
  rw [if_pos h]
  simp only [isConnected, sendSensorData, mkTelemetry]
  cases hc : s.connected <;> cases hw : env.wifiOk <;> simp

theorem pollPhase_not_due (env : TickEnv) (s : MeterState)
    (h : ¬ usub32 env.now s.previousRelayPoll ≥ relayPollPeriod) :
    pollPhase env s = (s, []) := by
  unfold pollPhase
  rw [if_neg h]

theorem pollPhase_disconnected (env : TickEnv) (s : MeterState)
    (h : usub32 env.now s.previousRelayPoll ≥ relayPollPeriod)
    (hc : (s.connected && env.wifiOk) = false) :
    pollPhase env s = ({ s with previousRelayPoll := env.now }, []) := by
  unfold pollPhase
  rw [if_pos h]
  simp only [isConnected]
  rw [hc]
  simp

theorem pollPhase_connected (env : TickEnv) (s : MeterState)
    (h : usub32 env.now s.previousRelayPoll ≥ relayPollPeriod)
    (hc : s.connected = true) (hw : env.wifiOk = true) :
    pollPhase env s =
      (let g := getRelayState true env.getRelayStatus env.getRelayBody
         s.relay1Hw s.relay2Hw
       if g.changed then
         ({ s with
             previousRelayPoll := env.now,
             relay1Hw := g.relay1State, relay2Hw := g.relay2State,
             previousRelay1State := g.relay1State,
             previousRelay2State := g.relay2State },
          g.events ++ [Action.setRelay1 g.relay1State,
                       Action.setRelay2 g.relay2State])
       else
         ({ s with previousRelayPoll := env.now }, g.events)) := by
  unfold pollPhase
  rw [if_pos h]
  simp only [isConnected, hc, hw, Bool.and_self, if_pos]

/-! ### `getRelayState` characterisation -/

theorem getRelayState_disconnected (st : Int) (b : Option (Bool × Bool))
    (r1 r2 : Bool) :
    getRelayState false st b r1 r2 =
      { changed := false, relay1State := r1, relay2State := r2,
        events := [] } := by
  simp [getRelayState]

theorem getRelayState_bad_status (st : Int) (b : Option (Bool × Bool))
    (r1 r2 : Bool) (h : st ≠ 200) :
    getRelayState true st b r1 r2 =
      { changed := false, relay1State := r1, relay2State := r2,
        events := [Action.httpGetRelay] } := by
  simp [getRelayState, h]

theorem getRelayState_parse_error (r1 r2 : Bool) :
    getRelayState true 200 none r1 r2 =
      { changed := false, relay1State := r1, relay2State := r2,
        events := [Action.httpGetRelay] } := by
  simp [getRelayState]

theorem getRelayState_ok (n1 n2 r1 r2 : Bool) :
    getRelayState true 200 (some (n1, n2)) r1 r2 =
      { changed := (n1 != r1) || (n2 != r2),
        relay1State := if n1 != r1 then n1 else r1,
        relay2State := if n2 != r2 then n2 else r2,
        events := Action.httpGetRelay ::
          ((if n1 != r1 then [Action.writeOut1 n1] else []) ++
           (if n2 != r2 then [Action.writeOut2 n2] else [])) } := by
  simp [getRelayState]

theorem getRelayState_events_shape (c : Bool) (st : Int)
    (b : Option (Bool × Bool)) (r1 r2 : Bool) :
    ∀ x ∈ (getRelayState c st b r1 r2).events,
      x = Action.httpGetRelay ∨ (∃ v, x = Action.writeOut1 v) ∨
        ∃ v, x = Action.writeOut2 v := by
  cases c
  · simp [getRelayState_disconnected]
  · by_cases h : st = 200
    · subst h
      rcases b with _ | ⟨n1, n2⟩
      · simp [getRelayState_parse_error]
      · rw [getRelayState_ok]
        intro x hx
        simp only [List.mem_cons, List.mem_append] at hx
        rcases hx with h | h | h
        · exact Or.inl h
        · refine Or.inr (Or.inl ?_)
          cases hb : (n1 != r1) <;> simp [hb] at h
          exact ⟨n1, h⟩
        · refine Or.inr (Or.inr ?_)
          cases hb : (n2 != r2) <;> simp [hb] at h
          exact ⟨n2, h⟩
    · simp [getRelayState_bad_status _ _ _ _ h]

/-! ### Composition facts about `prePoll` and `loopTick` -/

theorem loopTick_fst (env : TickEnv) (s : MeterState) :
    (loopTick env s).1 = (pollPhase env (prePoll env s).1).1 := rfl

theorem loopTick_snd (env : TickEnv) (s : MeterState) :
    (loopTick env s).2 =
      (prePoll env s).2 ++ (pollPhase env (prePoll env s).1).2 := rfl

theorem prePoll_connected (env : TickEnv) (s : MeterState) :
    ((prePoll env s).1).connected = env.wifiOk := by
  rcases hir : env.irEvent with _ | ⟨a, b⟩ <;>
  by_cases hd : usub32 env.now s.previousMillis ≥ printPeriod <;>
  by_cases ht : usub32 env.now s.previousWebMillis ≥ webSendPeriod <;>
    simp_all [prePoll, maintainPhase_eq, irPhase_eq, samplerPhase,
      displayPhase_due, displayPhase_not_due, telemetryPhase_due,
      telemetryPhase_not_due]

theorem prePoll_previousRelayPoll (env : TickEnv) (s : MeterState) :
    ((prePoll env s).1).previousRelayPoll = s.previousRelayPoll := by
  rcases hir : env.irEvent with _ | ⟨a, b⟩ <;>
  by_cases hd : usub32 env.now s.previousMillis ≥ printPeriod <;>
  by_cases ht : usub32 env.now s.previousWebMillis ≥ webSendPeriod <;>
    simp_all [prePoll, maintainPhase_eq, irPhase_eq, samplerPhase,
      displayPhase_due, displayPhase_not_due, telemetryPhase_due,
      telemetryPhase_not_due]

theorem prePoll_relayHw (env : TickEnv) (s : MeterState) :
    ((prePoll env s).1.relay1Hw, (prePoll env s).1.relay2Hw) =
      (match env.irEvent with
       | none => (s.relay1Hw, s.relay2Hw)
       | some p => p) := by
  rcases hir : env.irEvent with _ | ⟨a, b⟩ <;>
  by_cases hd : usub32 env.now s.previousMillis ≥ printPeriod <;>
  by_cases ht : usub32 env.now s.previousWebMillis ≥ webSendPeriod <;>
    simp_all [prePoll, maintainPhase_eq, irPhase_eq, samplerPhase,
      displayPhase_due, displayPhase_not_due, telemetryPhase_due,
      telemetryPhase_not_due]

theorem prePoll_snd (env : TickEnv) (s : MeterState) :
    (prePoll env s).2 =
      (maintainPhase env s).2 ++
        ((irPhase env (maintainPhase env s).1).2 ++
         ([Action.samplerUpdate 1, Action.samplerUpdate 2,
           Action.samplerUpdate 3] ++
          ((displayPhase env (irPhase env (maintainPhase env s).1).1).2 ++
           (telemetryPhase env (snapshotAfterDisplay env s)).2))) := rfl

theorem prePoll_fst (env : TickEnv) (s : MeterState) :
    (prePoll env s).1 =
      (telemetryPhase env (snapshotAfterDisplay env s)).1 := rfl

/-! ### Trace shapes of the phases -/

theorem irPhase_trace_shape (env : TickEnv) (s : MeterState) :
    ∀ x ∈ (irPhase env s).2, ∃ v w, x = Action.httpPostRelay v w := by
  rcases hir : env.irEvent with _ | ⟨a, b⟩
  · rw [irPhase_none env s hir]
    simp
  · rw [irPhase_some env s a b hir]
    split
    · intro x hx
      simp only [List.mem_singleton] at hx
      exact ⟨a, b, hx⟩
    · simp

theorem irPhase_trace_len (env : TickEnv) (s : MeterState) :
    (irPhase env s).2.length ≤ 1 := by
  rcases hir : env.irEvent with _ | ⟨a, b⟩
  · rw [irPhase_none env s hir]
    simp
  · rw [irPhase_some env s a b hir]
    split <;> simp

theorem displayPhase_trace_shape (env : TickEnv) (s : MeterState) :
    ∀ x ∈ (displayPhase env s).2, x = Action.displayRefresh := by
  unfold displayPhase
  split <;> simp

theorem telemetryPhase_trace_shape (env : TickEnv) (s : MeterState) :
    ∀ x ∈ (telemetryPhase env s).2, ∃ t, x = Action.httpPostData t := by
  by_cases ht : usub32 env.now s.previousWebMillis ≥ webSendPeriod
  · rw [telemetryPhase_due env s ht]
    split <;> simp
  · rw [telemetryPhase_not_due env s ht]
    simp

theorem pollPhase_trace_shape (env : TickEnv) (s : MeterState) :
    ∀ x ∈ (pollPhase env s).2,
      x = Action.httpGetRelay ∨ (∃ v, x = Action.writeOut1 v) ∨
        (∃ v, x = Action.writeOut2 v) ∨ (∃ v, x = Action.setRelay1 v) ∨
        ∃ v, x = Action.setRelay2 v := by
  by_cases hp : usub32 env.now s.previousRelayPoll ≥ relayPollPeriod
  · cases hc : s.connected <;> cases hw : env.wifiOk
    · rw [pollPhase_disconnected env s hp (by simp [hc, hw])]
      simp
    · rw [pollPhase_disconnected env s hp (by simp [hc, hw])]
      simp
    · rw [pollPhase_disconnected env s hp (by simp [hc, hw])]
      simp
    · rw [pollPhase_connected env s hp hc hw]
      simp only []
      split <;> intro x hx
      · simp only [List.mem_append, List.mem_cons,
          List.not_mem_nil, or_false] at hx
        rcases hx with h | h | h
        · rcases getRelayState_events_shape _ _ _ _ _ x h with h1 | h1 | h1
          · exact Or.inl h1
          · exact Or.inr (Or.inl h1)
          · exact Or.inr (Or.inr (Or.inl h1))
        · exact Or.inr (Or.inr (Or.inr (Or.inl ⟨_, h⟩)))
        · exact Or.inr (Or.inr (Or.inr (Or.inr ⟨_, h⟩)))
      · rcases getRelayState_events_shape _ _ _ _ _ x hx with h1 | h1 | h1
        · exact Or.inl h1
        · exact Or.inr (Or.inl h1)
        · exact Or.inr (Or.inr (Or.inl h1))
  · rw [pollPhase_not_due env s hp]
    simp

theorem mem_prePoll (env : TickEnv) (s : MeterState) (x : Action)
    (hx : x ∈ (prePoll env s).2) :
    x = Action.maintain ∨ (∃ v w, x = Action.httpPostRelay v w) ∨
      (∃ n, x = Action.samplerUpdate n) ∨ x = Action.displayRefresh ∨
      ∃ t, x = Action.httpPostData t := by
  rw [prePoll_snd, maintainPhase_snd] at hx
  simp only [List.mem_append, List.mem_cons, List.not_mem_nil,
    or_false] at hx
  rcases hx with h | h | h | h | h
  · exact Or.inl h
  · exact Or.inr (Or.inl (irPhase_trace_shape _ _ x h))
  · rcases h with h | h | h <;> exact Or.inr (Or.inr (Or.inl ⟨_, h⟩))
  · exact Or.inr (Or.inr (Or.inr (Or.inl (displayPhase_trace_shape _ _ x h))))
  · exact Or.inr (Or.inr (Or.inr (Or.inr (telemetryPhase_trace_shape _ _ x h))))

theorem afterIR_previousMillis (env : TickEnv) (s : MeterState) :
    (irPhase env (maintainPhase env s).1).1.previousMillis =
      s.previousMillis := by
  rw [maintainPhase_eq, irPhase_eq]
  rcases env.irEvent with _ | ⟨a, b⟩ <;> simp

theorem mkTelemetry_afterIR (env : TickEnv) (s : MeterState) :
    mkTelemetry (irPhase env (maintainPhase env s).1).1 = mkTelemetry s := by
  rw [maintainPhase_eq, irPhase_eq]
  rcases env.irEvent with _ | ⟨a, b⟩ <;> simp [mkTelemetry]

theorem snapshotAfterDisplay_connected (env : TickEnv) (s : MeterState) :
    (snapshotAfterDisplay env s).connected = env.wifiOk := by
  unfold snapshotAfterDisplay
  rcases hir : env.irEvent with _ | ⟨a, b⟩ <;>
  by_cases hd : usub32 env.now s.previousMillis ≥ printPeriod <;>
    simp_all [maintainPhase_eq, irPhase_eq, samplerPhase,
      displayPhase_due, displayPhase_not_due]

theorem snapshotAfterDisplay_not_due (env : TickEnv) (s : MeterState)
    (h : ¬ usub32 env.now s.previousMillis ≥ printPeriod) :
    mkTelemetry (snapshotAfterDisplay env s) = mkTelemetry s := by
  have h' : ¬ usub32 env.now
      (irPhase env (maintainPhase env s).1).1.previousMillis ≥ printPeriod := by
    rw [afterIR_previousMillis]
    exact h
  unfold snapshotAfterDisplay
  rw [show (samplerPhase env (irPhase env (maintainPhase env s).1).1).1 =
        (irPhase env (maintainPhase env s).1).1 from rfl,
      displayPhase_not_due _ _ h']
  exact mkTelemetry_afterIR env s

theorem snapshotAfterDisplay_due_fields (env : TickEnv) (s : MeterState)
    (h : usub32 env.now s.previousMillis ≥ printPeriod) :
    snapshotAfterDisplay env s =
      { (irPhase env (maintainPhase env s).1).1 with
          previousMillis := env.now,
          lastCurrent1 := env.current1, lastCurrent2 := env.current2,
          lastCurrent3 := env.current3, lastVoltage := env.voltage,
          lastTotalCurrent := env.current1 + env.current2,
          lastPower1 := env.voltage * env.current1,
          lastPower2 := env.voltage * env.current2,
          lastTotalPower := env.voltage * env.current1 +
            env.voltage * env.current2 } := by
  have h' : usub32 env.now
      (irPhase env (maintainPhase env s).1).1.previousMillis ≥ printPeriod := by
    rw [afterIR_previousMillis]
    exact h
  unfold snapshotAfterDisplay
  rw [show (samplerPhase env (irPhase env (maintainPhase env s).1).1).1 =
        (irPhase env (maintainPhase env s).1).1 from rfl,
      displayPhase_due _ _ h']

theorem mkTelemetry_telemetryPhase (env : TickEnv) (s : MeterState) :
    mkTelemetry (telemetryPhase env s).1 = mkTelemetry s := by
  by_cases ht : usub32 env.now s.previousWebMillis ≥ webSendPeriod
  · rw [telemetryPhase_due _ _ ht]
    simp [mkTelemetry]
  · rw [telemetryPhase_not_due _ _ ht]

theorem mkTelemetry_pollPhase (env : TickEnv) (s : MeterState) :
    mkTelemetry (pollPhase env s).1 = mkTelemetry s := by
  by_cases hp : usub32 env.now s.previousRelayPoll ≥ relayPollPeriod
  · cases hc : s.connected <;> cases hw : env.wifiOk
    · rw [pollPhase_disconnected env s hp (by simp [hc, hw])]
      simp [mkTelemetry]
    · rw [pollPhase_disconnected env s hp (by simp [hc, hw])]
      simp [mkTelemetry]
    · rw [pollPhase_disconnected env s hp (by simp [hc, hw])]
      simp [mkTelemetry]
    · rw [pollPhase_connected env s hp hc hw]
      simp only []
      split <;> simp [mkTelemetry]
  · rw [pollPhase_not_due env s hp]

theorem mkTelemetry_loopTick (env : TickEnv) (s : MeterState) :
    mkTelemetry (loopTick env s).1 =
      mkTelemetry (snapshotAfterDisplay env s) := by
  rw [loopTick_fst, mkTelemetry_pollPhase, prePoll_fst,
    mkTelemetry_telemetryPhase]

/-! ### Membership facts -/

theorem poll_actions_not_mem_prePoll (env : TickEnv) (s : MeterState) :
    (∀ v, Action.setRelay1 v ∉ (prePoll env s).2) ∧
    (∀ v, Action.setRelay2 v ∉ (prePoll env s).2) ∧
    Action.httpGetRelay ∉ (prePoll env s).2 := by
  refine ⟨fun v h => ?_, fun v h => ?_, fun h => ?_⟩ <;>
    (rcases mem_prePoll env s _ h with h1 | ⟨v', w', h1⟩ | ⟨n, h1⟩ | h1 | ⟨t, h1⟩ <;>
      simp at h1)

theorem setRelay_not_mem_events (c : Bool) (st : Int)
    (b : Option (Bool × Bool)) (r1 r2 : Bool) :
    (∀ v, Action.setRelay1 v ∉ (getRelayState c st b r1 r2).events) ∧
    ∀ v, Action.setRelay2 v ∉ (getRelayState c st b r1 r2).events := by
  constructor <;> intro v h <;>
    (rcases getRelayState_events_shape c st b r1 r2 _ h with h1 | ⟨w, h1⟩ | ⟨w, h1⟩ <;>
      simp at h1)

theorem setRelay_mem_pollPhase (env : TickEnv) (s : MeterState) :
    ((∃ v, Action.setRelay1 v ∈ (pollPhase env s).2) ∨
     ∃ v, Action.setRelay2 v ∈ (pollPhase env s).2) ↔
      (usub32 env.now s.previousRelayPoll ≥ relayPollPeriod ∧
       (s.connected && env.wifiOk) = true ∧
       (getRelayState s.connected env.getRelayStatus env.getRelayBody
         s.relay1Hw s.relay2Hw).changed = true) := by
  by_cases hp : usub32 env.now s.previousRelayPoll ≥ relayPollPeriod
  · cases hc : s.connected <;> cases hw : env.wifiOk
    · rw [pollPhase_disconnected env s hp (by simp [hc, hw])]
      simp
    · rw [pollPhase_disconnected env s hp (by simp [hc, hw])]
      simp
    · rw [pollPhase_disconnected env s hp (by simp [hc, hw])]
      simp [hw]
    · rw [pollPhase_connected env s hp hc hw]
      simp only []
      cases hchg : (getRelayState true env.getRelayStatus env.getRelayBody
          s.relay1Hw s.relay2Hw).changed
      · rw [if_neg (by simp)]
        constructor
        · rintro (⟨v, hv⟩ | ⟨v, hv⟩)
          · exact absurd hv ((setRelay_not_mem_events _ _ _ _ _).1 v)
          · exact absurd hv ((setRelay_not_mem_events _ _ _ _ _).2 v)
        · rintro ⟨-, -, h3⟩
          exact absurd h3 (by simp)
      · rw [if_pos rfl]
        constructor
        · intro _
          exact ⟨hp, rfl, rfl⟩
        · intro _
          refine Or.inl ⟨(getRelayState true env.getRelayStatus
            env.getRelayBody s.relay1Hw s.relay2Hw).relay1State, ?_⟩
          simp
  · rw [pollPhase_not_due env s hp]
    simp [hp]

theorem pollPhase_no_change_relayHw (env : TickEnv) (s : MeterState)
    (hchg : (getRelayState s.connected env.getRelayStatus env.getRelayBody
      s.relay1Hw s.relay2Hw).changed = false) :
    (pollPhase env s).1.relay1Hw = s.relay1Hw ∧
    (pollPhase env s).1.relay2Hw = s.relay2Hw := by
  by_cases hp : usub32 env.now s.previousRelayPoll ≥ relayPollPeriod
  · cases hc : s.connected <;> cases hw : env.wifiOk
    · rw [pollPhase_disconnected env s hp (by simp [hc, hw])]
      exact ⟨rfl, rfl⟩
    · rw [pollPhase_disconnected env s hp (by simp [hc, hw])]
      exact ⟨rfl, rfl⟩
    · rw [pollPhase_disconnected env s hp (by simp [hc, hw])]
      exact ⟨rfl, rfl⟩
    · rw [pollPhase_connected env s hp hc hw]
      rw [hc] at hchg
      simp only []
      rw [if_neg (by rw [hchg]; exact Bool.false_ne_true)]
      exact ⟨rfl, rfl⟩
  · rw [pollPhase_not_due env s hp]
    exact ⟨rfl, rfl⟩

theorem httpPostData_payload (env : TickEnv) (s : MeterState) :
    ∀ t, Action.httpPostData t ∈ (loopTick env s).2 →
      t = mkTelemetry (snapshotAfterDisplay env s) := by
  intro t h
  rw [loopTick_snd] at h
  rcases List.mem_append.mp h with h | h
  · rw [prePoll_snd, maintainPhase_snd] at h
    simp only [List.mem_append, List.mem_cons, List.not_mem_nil,
      or_false] at h
    rcases h with h | h | h | h | h
    · simp at h
    · rcases irPhase_trace_shape _ _ _ h with ⟨v, w, hh⟩
      simp at hh
    · rcases h with h | h | h <;> simp at h
    · have := displayPhase_trace_shape _ _ _ h
      simp at this
    · by_cases ht : usub32 env.now
          (snapshotAfterDisplay env s).previousWebMillis ≥ webSendPeriod
      · rw [telemetryPhase_due _ _ ht] at h
        cases hb : ((snapshotAfterDisplay env s).connected && env.wifiOk) <;>
          rw [hb] at h <;> simp at h
        exact h
      · rw [telemetryPhase_not_due _ _ ht] at h
        simp at h
  · rcases pollPhase_trace_shape _ _ _ h
      with h1 | ⟨v, h1⟩ | ⟨v, h1⟩ | ⟨v, h1⟩ | ⟨v, h1⟩ <;> simp at h1

theorem displayRefresh_mem_of_due (env : TickEnv) (s : MeterState)
    (h : usub32 env.now s.previousMillis ≥ printPeriod) :
    Action.displayRefresh ∈ (loopTick env s).2 := by
  have h' : usub32 env.now
      (irPhase env (maintainPhase env s).1).1.previousMillis ≥ printPeriod := by
    rw [afterIR_previousMillis]
    exact h
  rw [loopTick_snd, prePoll_snd, displayPhase_due _ _ h']
  simp

theorem run_snd (e : TickEnv) (es : List TickEnv) (s : MeterState) :
    (run (e :: es) s).2 = (loopTick e s).2 ++ (run es (loopTick e s).1).2 :=
  rfl

theorem run_no_display_zero (envs : List TickEnv) :
    ∀ s : MeterState, mkTelemetry s = zeroTelemetry →
      Action.displayRefresh ∉ (run envs s).2 →
      ∀ t, Action.httpPostData t ∈ (run envs s).2 → t = zeroTelemetry := by
  induction envs with
  | nil =>
    intro s _ _ t ht
    simp [run] at ht
  | cons e es ih =>
    intro s hz hnd t ht
    rw [run_snd] at ht hnd
    have hnd1 : Action.displayRefresh ∉ (loopTick e s).2 := fun h =>
      hnd (List.mem_append.mpr (Or.inl h))
    have hnd2 : Action.displayRefresh ∉ (run es (loopTick e s).1).2 := fun h =>
      hnd (List.mem_append.mpr (Or.inr h))
    have hdue : ¬ usub32 e.now s.previousMillis ≥ printPeriod := fun h =>
      hnd1 (displayRefresh_mem_of_due e s h)
    have hz' : mkTelemetry (loopTick e s).1 = zeroTelemetry := by
      rw [mkTelemetry_loopTick, snapshotAfterDisplay_not_due e s hdue, hz]
    rcases List.mem_append.mp ht with h | h
    · rw [httpPostData_payload e s t h,
        snapshotAfterDisplay_not_due e s hdue, hz]
    · exact ih (loopTick e s).1 hz' hnd2 t h

/-! ### The claims -/

/-- Claim C1: on a poll that receives HTTP 200 and a well-formed body,
`getRelayState` returns true exactly when at least one fetched relay field
differs from the local relay state passed in; and the loop performs the
hardware relay writes (`setRelay1`/`setRelay2`) on a poll exactly when
`getRelayState` returned true — so a poll whose server values equal local
state performs no hardware write. -/
theorem getRelayState_changed_iff_diff (env : TickEnv) (s : MeterState)
    (n1 n2 r1 r2 : Bool)
    (hst : env.getRelayStatus = 200) (hb : env.getRelayBody = some (n1, n2)) :
    ((getRelayState true env.getRelayStatus env.getRelayBody r1 r2).changed
        = true ↔ (n1 ≠ r1 ∨ n2 ≠ r2)) ∧
    (((∃ v, Action.setRelay1 v ∈ (loopTick env s).2) ∨
      ∃ v, Action.setRelay2 v ∈ (loopTick env s).2) ↔
      (usub32 env.now s.previousRelayPoll ≥ relayPollPeriod ∧
       env.wifiOk = true ∧
       (getRelayState true env.getRelayStatus env.getRelayBody
         (prePoll env s).1.relay1Hw (prePoll env s).1.relay2Hw).changed
           = true)) := by
  constructor
  · rw [hst, hb, getRelayState_ok]
    simp [bne_iff_ne]
  · have hpre := poll_actions_not_mem_prePoll env s
    have hmem : ((∃ v, Action.setRelay1 v ∈ (loopTick env s).2) ∨
        ∃ v, Action.setRelay2 v ∈ (loopTick env s).2) ↔
        ((∃ v, Action.setRelay1 v ∈ (pollPhase env (prePoll env s).1).2) ∨
         ∃ v, Action.setRelay2 v ∈ (pollPhase env (prePoll env s).1).2) := by
      rw [loopTick_snd]
      constructor
      · rintro (⟨v, hv⟩ | ⟨v, hv⟩)
        · rcases List.mem_append.mp hv with h | h
          · exact absurd h (hpre.1 v)
          · exact Or.inl ⟨v, h⟩
        · rcases List.mem_append.mp hv with h | h
          · exact absurd h (hpre.2.1 v)
          · exact Or.inr ⟨v, h⟩
      · rintro (⟨v, hv⟩ | ⟨v, hv⟩)
        · exact Or.inl ⟨v, List.mem_append.mpr (Or.inr hv)⟩
        · exact Or.inr ⟨v, List.mem_append.mpr (Or.inr hv)⟩
    rw [hmem, setRelay_mem_pollPhase, prePoll_previousRelayPoll,
      prePoll_connected]
    constructor
    · rintro ⟨hA, hB, hC⟩
      have hw : env.wifiOk = true := by
        cases hwb : env.wifiOk
        · rw [hwb] at hB
          simp at hB
        · rfl
      rw [hw] at hC
      exact ⟨hA, hw, hC⟩
    · rintro ⟨hA, hB, hC⟩
      rw [hB]
      exact ⟨hA, rfl, hC⟩

/-- Claim C2: within every iteration of `loop()` the actions run in the
fixed order — connectivity maintenance, then the IR check and its push,
then the three sampler updates, then (each on its own cadence) display
refresh, telemetry push, and the relay poll; in particular the IR push is
fully resolved before the tick's poll-driven logic. -/
theorem loop_tick_action_order (env : TickEnv) (s : MeterState) :
    ∃ irSeg dispSeg telSeg pollSeg,
      (loopTick env s).2 =
        Action.maintain ::
          (irSeg ++ ([Action.samplerUpdate 1, Action.samplerUpdate 2,
            Action.samplerUpdate 3] ++ (dispSeg ++ (telSeg ++ pollSeg)))) ∧
      irSeg = (irPhase env (maintainPhase env s).1).2 ∧
      (∀ x ∈ irSeg, ∃ v w, x = Action.httpPostRelay v w) ∧
      (∀ x ∈ dispSeg, x = Action.displayRefresh) ∧
      (∀ x ∈ telSeg, ∃ t, x = Action.httpPostData t) ∧
      (∀ x ∈ pollSeg, x = Action.httpGetRelay ∨
        (∃ v, x = Action.writeOut1 v) ∨ (∃ v, x = Action.writeOut2 v) ∨
        (∃ v, x = Action.setRelay1 v) ∨ ∃ v, x = Action.setRelay2 v) := by
  refine ⟨(irPhase env (maintainPhase env s).1).2,
    (displayPhase env (irPhase env (maintainPhase env s).1).1).2,
    (telemetryPhase env (snapshotAfterDisplay env s)).2,
    (pollPhase env (prePoll env s).1).2,
    ?_, rfl, irPhase_trace_shape _ _, displayPhase_trace_shape _ _,
    telemetryPhase_trace_shape _ _, pollPhase_trace_shape _ _⟩
  rw [loopTick_snd, prePoll_snd, maintainPhase_snd]
  simp [List.append_assoc]

/-- Claim C3: a tick issues at most one IR-triggered relay-state push
(`postRelayState`), none when the IR handler reported no change, and any
such push sits in the pre-poll part of the trace while the poll's GET sits
in the poll part — so the push is issued before the poll fetch is
evaluated. -/
theorem ir_push_at_most_once_before_poll (env : TickEnv) (s : MeterState) :
    (loopTick env s).2.countP isPostRelay ≤ 1 ∧
    (env.irEvent = none → (loopTick env s).2.countP isPostRelay = 0) ∧
    (loopTick env s).2 =
      (prePoll env s).2 ++ (pollPhase env (prePoll env s).1).2 ∧
    (∀ v w, Action.httpPostRelay v w ∉ (pollPhase env (prePoll env s).1).2) ∧
    Action.httpGetRelay ∉ (prePoll env s).2 := by
  have hpoll0 : (pollPhase env (prePoll env s).1).2.countP isPostRelay = 0 :=
    List.countP_eq_zero.mpr (by
      intro a ha
      rcases pollPhase_trace_shape _ _ a ha
        with h | ⟨v, h⟩ | ⟨v, h⟩ | ⟨v, h⟩ | ⟨v, h⟩ <;> simp [h, isPostRelay])
  have hd0 : (displayPhase env
      (irPhase env (maintainPhase env s).1).1).2.countP isPostRelay = 0 :=
    List.countP_eq_zero.mpr (by
      intro a ha
      have := displayPhase_trace_shape _ _ a ha
      simp [this, isPostRelay])
  have ht0 : (telemetryPhase env
      (snapshotAfterDisplay env s)).2.countP isPostRelay = 0 :=
    List.countP_eq_zero.mpr (by
      intro a ha
      rcases telemetryPhase_trace_shape _ _ a ha with ⟨t, h⟩
      simp [h, isPostRelay])
  have key : (loopTick env s).2.countP isPostRelay =
      (irPhase env (maintainPhase env s).1).2.countP isPostRelay := by
    rw [loopTick_snd, prePoll_snd, maintainPhase_snd]
    simp [List.countP_append, List.countP_cons, hd0, ht0, hpoll0, isPostRelay]
  refine ⟨?_, ?_, rfl, ?_, (poll_actions_not_mem_prePoll env s).2.2⟩
  · rw [key]
    exact le_trans (List.countP_le_length _) (irPhase_trace_len _ _)
  · intro hnone
    rw [key, irPhase_none env _ hnone]
    simp
  · intro v w h
    rcases pollPhase_trace_shape _ _ _ h
      with h1 | ⟨x, h1⟩ | ⟨x, h1⟩ | ⟨x, h1⟩ | ⟨x, h1⟩ <;> simp at h1

/-- Claim C4: a poll whose GET returns 200 but whose body fails to parse
makes `getRelayState` return false with the by-reference outputs
untouched, and the loop then performs no hardware relay write — the parse
failure is treated exactly like "no change" (the tick is a total function,
so the loop neither halts nor crashes). -/
theorem parse_failure_treated_as_no_change (env : TickEnv) (s : MeterState)
    (c : Bool) (r1 r2 : Bool)
    (hst : env.getRelayStatus = 200) (hb : env.getRelayBody = none) :
    (getRelayState c env.getRelayStatus env.getRelayBody r1 r2).changed
        = false ∧
    (getRelayState c env.getRelayStatus env.getRelayBody r1 r2).relay1State
        = r1 ∧
    (getRelayState c env.getRelayStatus env.getRelayBody r1 r2).relay2State
        = r2 ∧
    (∀ v, Action.setRelay1 v ∉ (loopTick env s).2 ∧
          Action.setRelay2 v ∉ (loopTick env s).2) ∧
    (loopTick env s).1.relay1Hw = (prePoll env s).1.relay1Hw ∧
    (loopTick env s).1.relay2Hw = (prePoll env s).1.relay2Hw := by
  have hgp : (getRelayState (prePoll env s).1.connected env.getRelayStatus
      env.getRelayBody (prePoll env s).1.relay1Hw
      (prePoll env s).1.relay2Hw).changed = false := by
    rw [hst, hb]
    cases (prePoll env s).1.connected
    · rw [getRelayState_disconnected]
    · rw [getRelayState_parse_error]
  have hrelay := pollPhase_no_change_relayHw env (prePoll env s).1 hgp
  have hset : ∀ v, Action.setRelay1 v ∉ (loopTick env s).2 ∧
      Action.setRelay2 v ∉ (loopTick env s).2 := by
    intro v
    have hnp := setRelay_mem_pollPhase env (prePoll env s).1
    constructor <;> intro hmemb <;> rw [loopTick_snd] at hmemb
    · rcases List.mem_append.mp hmemb with h | h
      · exact absurd h ((poll_actions_not_mem_prePoll env s).1 v)
      · rcases hnp.mp (Or.inl ⟨v, h⟩) with ⟨-, -, h3⟩
        rw [hgp] at h3
        exact absurd h3 (by simp)
    · rcases List.mem_append.mp hmemb with h | h
      · exact absurd h ((poll_actions_not_mem_prePoll env s).2.1 v)
      · rcases hnp.mp (Or.inr ⟨v, h⟩) with ⟨-, -, h3⟩
        rw [hgp] at h3
        exact absurd h3 (by simp)
  have hret : ∀ c' : Bool,
      getRelayState c' env.getRelayStatus env.getRelayBody r1 r2 =
        { changed := false, relay1State := r1, relay2State := r2,
          events := if c' then [Action.httpGetRelay] else [] } := by
    intro c'
    rw [hst, hb]
    cases c'
    · rw [getRelayState_disconnected]
      simp
    · rw [getRelayState_parse_error]
      simp
  refine ⟨?_, ?_, ?_, hset, ?_, ?_⟩
  · rw [hret c]
  · rw [hret c]
  · rw [hret c]
  · rw [loopTick_fst]
    exact hrelay.1
  · rw [loopTick_fst]
    exact hrelay.2

/-- Claim C5: when an IR change is being synced, neither the IR branch of
the loop nor `postRelayState` writes the relay outputs — regardless of
connectivity and of the push's HTTP outcome, the hardware ends the tick in
the IR-applied state (here, with the poll cadence not due, so no other
writer runs this tick). -/
theorem ir_branch_never_writes_relays (env : TickEnv) (s : MeterState)
    (a b : Bool) (hir : env.irEvent = some (a, b))
    (hpoll : usub32 env.now s.previousRelayPoll < relayPollPeriod) :
    (loopTick env s).1.relay1Hw = a ∧ (loopTick env s).1.relay2Hw = b ∧
    (∀ v, Action.setRelay1 v ∉ (loopTick env s).2 ∧
          Action.setRelay2 v ∉ (loopTick env s).2) ∧
    ∀ (c : Bool) (st : Int) (r1 r2 v : Bool),
      Action.setRelay1 v ∉ (postRelayState c st r1 r2).2 ∧
      Action.setRelay2 v ∉ (postRelayState c st r1 r2).2 := by
  have hnp : ¬ usub32 env.now
      (prePoll env s).1.previousRelayPoll ≥ relayPollPeriod := by
    rw [prePoll_previousRelayPoll]
    exact not_le.mpr hpoll
  have hpoll0 := pollPhase_not_due env (prePoll env s).1 hnp
  have hhw : (prePoll env s).1.relay1Hw = a ∧
      (prePoll env s).1.relay2Hw = b := by
    have hpair := prePoll_relayHw env s
    rw [hir] at hpair
    exact ⟨congrArg Prod.fst hpair, congrArg Prod.snd hpair⟩
  refine ⟨?_, ?_, ?_, ?_⟩
  · rw [loopTick_fst, hpoll0]
    exact hhw.1
  · rw [loopTick_fst, hpoll0]
    exact hhw.2
  · intro v
    constructor <;> intro hmemb <;> rw [loopTick_snd, hpoll0] at hmemb <;>
      rcases List.mem_append.mp hmemb with h | h
    · exact absurd h ((poll_actions_not_mem_prePoll env s).1 v)
    · simp at h
    · exact absurd h ((poll_actions_not_mem_prePoll env s).2.1 v)
    · simp at h
  · intro c st r1 r2 v
    cases c <;> simp [postRelayState]

/-- Claim C6: no network operation is attempted while disconnected — with
the WiFi link down, a tick's trace contains no HTTP action, and each of
`sendSensorData`, `postRelayState` and `getRelayState` returns false at
once with no HTTP activity when the connected flag is false. -/
theorem no_network_when_disconnected (env : TickEnv) (s : MeterState)
    (st : Int) (t : Telemetry) (b : Option (Bool × Bool)) (r1 r2 : Bool) :
    (env.wifiOk = false → ∀ x ∈ (loopTick env s).2, isNetOp x = false) ∧
    sendSensorData false st t = (false, []) ∧
    postRelayState false st r1 r2 = (false, []) ∧
    getRelayState false st b r1 r2 =
      { changed := false, relay1State := r1, relay2State := r2,
        events := [] } := by
  refine ⟨?_, by simp [sendSensorData], by simp [postRelayState],
    getRelayState_disconnected st b r1 r2⟩
  intro hw x hx
  have hir0 : (irPhase env (maintainPhase env s).1).2 = [] := by
    rw [maintainPhase_eq, irPhase_eq]
    rcases env.irEvent with _ | ⟨a', b'⟩
    · rfl
    · simp [hw]
  have htel0 : (telemetryPhase env (snapshotAfterDisplay env s)).2 = [] := by
    by_cases ht : usub32 env.now
        (snapshotAfterDisplay env s).previousWebMillis ≥ webSendPeriod
    · rw [telemetryPhase_due _ _ ht]
      simp [snapshotAfterDisplay_connected, hw]
    · rw [telemetryPhase_not_due _ _ ht]
  have hpoll0 : (pollPhase env (prePoll env s).1).2 = [] := by
    by_cases hp : usub32 env.now
        (prePoll env s).1.previousRelayPoll ≥ relayPollPeriod
    · rw [pollPhase_disconnected _ _ hp (by rw [prePoll_connected, hw]; simp)]
    · rw [pollPhase_not_due _ _ hp]
  rw [loopTick_snd] at hx
  rcases List.mem_append.mp hx with h | h
  · rw [prePoll_snd, maintainPhase_snd, hir0, htel0] at h
    simp only [List.nil_append, List.append_nil] at h
    rcases List.mem_append.mp h with h2 | h2
    · rw [List.mem_singleton] at h2
      simp [h2, isNetOp]
    · rcases List.mem_append.mp h2 with h3 | h3
      · simp only [List.mem_cons, List.not_mem_nil, or_false] at h3
        rcases h3 with h4 | h4 | h4 <;> simp [h4, isNetOp]
      · have := displayPhase_trace_shape _ _ x h3
        simp [this, isNetOp]
  · rw [hpoll0] at h
    simp at h

/-- Claim C7: the two push operations use their stated success criteria —
`sendSensorData` succeeds exactly when the HTTP status is greater than 0
(any response received), `postRelayState` exactly when it equals 200. -/
theorem push_success_criteria (st : Int) (t : Telemetry) (r1 r2 : Bool) :
    ((sendSensorData true st t).1 = true ↔ 0 < st) ∧
    ((postRelayState true st r1 r2).1 = true ↔ st = 200) := by
  constructor <;> simp [sendSensorData, postRelayState]

/-- Claim C8: `getRelayState` is atomic on error — on every failure path
(not connected, status other than 200, parse error) it returns false and
leaves both by-reference outputs exactly as passed; a fetched field is
written to an output only when it differs from the value passed in. -/
theorem getRelayState_error_atomic (c : Bool) (st : Int)
    (b : Option (Bool × Bool)) (r1 r2 : Bool) :
    ((c = false ∨ st ≠ 200 ∨ b = none) →
      (getRelayState c st b r1 r2).changed = false ∧
      (getRelayState c st b r1 r2).relay1State = r1 ∧
      (getRelayState c st b r1 r2).relay2State = r2 ∧
      ∀ v, Action.writeOut1 v ∉ (getRelayState c st b r1 r2).events ∧
           Action.writeOut2 v ∉ (getRelayState c st b r1 r2).events) ∧
    (∀ v, Action.writeOut1 v ∈ (getRelayState c st b r1 r2).events ↔
      (c = true ∧ st = 200 ∧ ∃ m, b = some (v, m) ∧ v ≠ r1)) ∧
    (∀ v, Action.writeOut2 v ∈ (getRelayState c st b r1 r2).events ↔
      (c = true ∧ st = 200 ∧ ∃ m, b = some (m, v) ∧ v ≠ r2)) := by
  cases c
  · simp [getRelayState_disconnected]
  · by_cases h200 : st = 200
    · subst h200
      rcases b with _ | ⟨n1, n2⟩
      · simp [getRelayState_parse_error]
      · rw [getRelayState_ok]
        cases hb1 : n1 != r1 <;> cases hb2 : n2 != r2 <;>
          simp_all [bne_iff_ne] <;> aesop
    · simp [getRelayState_bad_status _ _ _ _ h200, h200]

/-- Claim C9: the derived totals exclude channel 3 — at a display-refresh
tick the state satisfies `lastTotalCurrent = lastCurrent1 + lastCurrent2`,
`lastPower1 = lastVoltage * lastCurrent1`,
`lastPower2 = lastVoltage * lastCurrent2` and
`lastTotalPower = lastPower1 + lastPower2`, and any telemetry body pushed
this tick carries totals satisfying the same relations. -/
theorem totals_exclude_channel3 (env : TickEnv) (s : MeterState)
    (h : usub32 env.now s.previousMillis ≥ printPeriod) :
    (loopTick env s).1.lastTotalCurrent =
      (loopTick env s).1.lastCurrent1 + (loopTick env s).1.lastCurrent2 ∧
    (loopTick env s).1.lastPower1 =
      (loopTick env s).1.lastVoltage * (loopTick env s).1.lastCurrent1 ∧
    (loopTick env s).1.lastPower2 =
      (loopTick env s).1.lastVoltage * (loopTick env s).1.lastCurrent2 ∧
    (loopTick env s).1.lastTotalPower =
      (loopTick env s).1.lastPower1 + (loopTick env s).1.lastPower2 ∧
    ∀ t, Action.httpPostData t ∈ (loopTick env s).2 →
      t.totalCurrent = t.current1 + t.current2 ∧
      t.power1 = t.voltage * t.current1 ∧
      t.power2 = t.voltage * t.current2 ∧
      t.totalPower = t.power1 + t.power2 := by
  have hM := mkTelemetry_loopTick env s
  rw [snapshotAfterDisplay_due_fields env s h] at hM
  have hv := congrArg Telemetry.voltage hM
  have hc1 := congrArg Telemetry.current1 hM
  have hc2 := congrArg Telemetry.current2 hM
  have htc := congrArg Telemetry.totalCurrent hM
  have hp1 := congrArg Telemetry.power1 hM
  have hp2 := congrArg Telemetry.power2 hM
  have htp := congrArg Telemetry.totalPower hM
  simp only [mkTelemetry] at hv hc1 hc2 htc hp1 hp2 htp
  refine ⟨?_, ?_, ?_, ?_, ?_⟩
  · rw [htc, hc1, hc2]
  · rw [hp1, hv, hc1]
  · rw [hp2, hv, hc2]
  · rw [htp, hp1, hp2]
  · intro t htm
    have hpay := httpPostData_payload env s t htm
    rw [snapshotAfterDisplay_due_fields env s h] at hpay
    subst hpay
    simp [mkTelemetry]

/-- Claim C10: every telemetry push sends the snapshot globals as they
stand after the tick's display block (the only place they are updated);
when the display cadence is not due the snapshot is unchanged by the tick;
and over any run in which no display refresh has yet occurred, every
telemetry push reports the all-zero initialisation values. -/
theorem telemetry_pushes_snapshot_zero_before_refresh (env : TickEnv)
    (s : MeterState) :
    (∀ t, Action.httpPostData t ∈ (loopTick env s).2 →
       t = mkTelemetry (snapshotAfterDisplay env s)) ∧
    (usub32 env.now s.previousMillis < printPeriod →
       mkTelemetry (loopTick env s).1 = mkTelemetry s) ∧
    ∀ (envs : List TickEnv) (r1 r2 c : Bool),
      Action.displayRefresh ∉ (run envs (initState r1 r2 c)).2 →
      ∀ t, Action.httpPostData t ∈ (run envs (initState r1 r2 c)).2 →
        t = zeroTelemetry := by
  refine ⟨httpPostData_payload env s, ?_, ?_⟩
  · intro hlt
    rw [mkTelemetry_loopTick, snapshotAfterDisplay_not_due env s
      (not_le.mpr hlt)]
  · intro envs r1 r2 c hnd t ht
    exact run_no_display_zero envs (initState r1 r2 c) rfl hnd t ht

/-! ### Concrete witnesses -/

/-- A connected tick well past every cadence, with a well-formed poll body
`{relay1: true, relay2: false}`. -/
def envA : TickEnv :=
  { now := 20000, wifiOk := true, irEvent := none,
    current1 := 1, current2 := 2, current3 := 3, voltage := 10,
    postRelayStatus := 200, sendDataStatus := 200, getRelayStatus := 200,
    getRelayBody := some (true, false) }

/-- Like `envA` but the poll body fails to parse. -/
def envB : TickEnv := { envA with getRelayBody := none }

/-- An early tick (no cadence due) on which the IR remote switched both
relays on and every HTTP call would fail. -/
def envC : TickEnv :=
  { now := 100, wifiOk := true, irEvent := some (true, true),
    current1 := 0, current2 := 0, current3 := 0, voltage := 0,
    postRelayStatus := -1, sendDataStatus := -1, getRelayStatus := -1,
    getRelayBody := none }

/-- Like `envA` but with the WiFi link down. -/
def envD : TickEnv := { envA with wifiOk := false }

/-- The boot state: both relays off, connected after `setup()`. -/
def s0 : MeterState := initState false false true

theorem getRelayState_changed_iff_diff_witness :
    ((getRelayState true envA.getRelayStatus envA.getRelayBody false
        false).changed = true ↔ ((true : Bool) ≠ false ∨ (false : Bool) ≠ false)) ∧
    (((∃ v, Action.setRelay1 v ∈ (loopTick envA s0).2) ∨
      ∃ v, Action.setRelay2 v ∈ (loopTick envA s0).2) ↔
      (usub32 envA.now s0.previousRelayPoll ≥ relayPollPeriod ∧
       envA.wifiOk = true ∧
       (getRelayState true envA.getRelayStatus envA.getRelayBody
         (prePoll envA s0).1.relay1Hw (prePoll envA s0).1.relay2Hw).changed
           = true)) :=
  getRelayState_changed_iff_diff envA s0 true false false false rfl rfl

theorem loop_tick_action_order_witness :
    ∃ irSeg dispSeg telSeg pollSeg,
      (loopTick envA s0).2 =
        Action.maintain ::
          (irSeg ++ ([Action.samplerUpdate 1, Action.samplerUpdate 2,
            Action.samplerUpdate 3] ++ (dispSeg ++ (telSeg ++ pollSeg)))) ∧
      irSeg = (irPhase envA (maintainPhase envA s0).1).2 ∧
      (∀ x ∈ irSeg, ∃ v w, x = Action.httpPostRelay v w) ∧
      (∀ x ∈ dispSeg, x = Action.displayRefresh) ∧
      (∀ x ∈ telSeg, ∃ t, x = Action.httpPostData t) ∧
      (∀ x ∈ pollSeg, x = Action.httpGetRelay ∨
        (∃ v, x = Action.writeOut1 v) ∨ (∃ v, x = Action.writeOut2 v) ∨
        (∃ v, x = Action.setRelay1 v) ∨ ∃ v, x = Action.setRelay2 v) :=
  loop_tick_action_order envA s0

theorem ir_push_at_most_once_before_poll_witness :
    (loopTick envA s0).2.countP isPostRelay ≤ 1 ∧
    (envA.irEvent = none → (loopTick envA s0).2.countP isPostRelay = 0) ∧
    (loopTick envA s0).2 =
      (prePoll envA s0).2 ++ (pollPhase envA (prePoll envA s0).1).2 ∧
    (∀ v w,
      Action.httpPostRelay v w ∉ (pollPhase envA (prePoll envA s0).1).2) ∧
    Action.httpGetRelay ∉ (prePoll envA s0).2 :=
  ir_push_at_most_once_before_poll envA s0

theorem parse_failure_treated_as_no_change_witness :
    (getRelayState true envB.getRelayStatus envB.getRelayBody false
        false).changed = false ∧
    (getRelayState true envB.getRelayStatus envB.getRelayBody false
        false).relay1State = false ∧
    (getRelayState true envB.getRelayStatus envB.getRelayBody false
        false).relay2State = false ∧
    (∀ v, Action.setRelay1 v ∉ (loopTick envB s0).2 ∧
          Action.setRelay2 v ∉ (loopTick envB s0).2) ∧
    (loopTick envB s0).1.relay1Hw = (prePoll envB s0).1.relay1Hw ∧
    (loopTick envB s0).1.relay2Hw = (prePoll envB s0).1.relay2Hw :=
  parse_failure_treated_as_no_change envB s0 true false false rfl rfl

theorem ir_branch_never_writes_relays_witness :
    (loopTick envC s0).1.relay1Hw = true ∧
    (loopTick envC s0).1.relay2Hw = true ∧
    (∀ v, Action.setRelay1 v ∉ (loopTick envC s0).2 ∧
          Action.setRelay2 v ∉ (loopTick envC s0).2) ∧
    ∀ (c : Bool) (st : Int) (r1 r2 v : Bool),
      Action.setRelay1 v ∉ (postRelayState c st r1 r2).2 ∧
      Action.setRelay2 v ∉ (postRelayState c st r1 r2).2 :=
  ir_branch_never_writes_relays envC s0 true true rfl (by decide)

theorem no_network_when_disconnected_witness :
    (envD.wifiOk = false → ∀ x ∈ (loopTick envD s0).2, isNetOp x = false) ∧
    sendSensorData false (-1) zeroTelemetry = (false, []) ∧
    postRelayState false (-1) false true = (false, []) ∧
    getRelayState false (-1) none false true =
      { changed := false, relay1State := false, relay2State := true,
        events := [] } :=
  no_network_when_disconnected envD s0 (-1) zeroTelemetry none false true

theorem getRelayState_error_atomic_witness :
    ((false = false ∨ (404 : Int) ≠ 200 ∨
        (none : Option (Bool × Bool)) = none) →
      (getRelayState false 404 none true false).changed = false ∧
      (getRelayState false 404 none true false).relay1State = true ∧
      (getRelayState false 404 none true false).relay2State = false ∧
      ∀ v, Action.writeOut1 v ∉ (getRelayState false 404 none true false).events ∧
           Action.writeOut2 v ∉ (getRelayState false 404 none true false).events) ∧
    (∀ v, Action.writeOut1 v ∈ (getRelayState false 404 none true false).events ↔
      (false = true ∧ (404 : Int) = 200 ∧
        ∃ m, (none : Option (Bool × Bool)) = some (v, m) ∧ v ≠ true)) ∧
    (∀ v, Action.writeOut2 v ∈ (getRelayState false 404 none true false).events ↔
      (false = true ∧ (404 : Int) = 200 ∧
        ∃ m, (none : Option (Bool × Bool)) = some (m, v) ∧ v ≠ false)) :=
  getRelayState_error_atomic false 404 none true false

theorem totals_exclude_channel3_witness :
    (loopTick envA s0).1.lastTotalCurrent =
      (loopTick envA s0).1.lastCurrent1 + (loopTick envA s0).1.lastCurrent2 ∧
    (loopTick envA s0).1.lastPower1 =
      (loopTick envA s0).1.lastVoltage * (loopTick envA s0).1.lastCurrent1 ∧
    (loopTick envA s0).1.lastPower2 =
      (loopTick envA s0).1.lastVoltage * (loopTick envA s0).1.lastCurrent2 ∧
    (loopTick envA s0).1.lastTotalPower =
      (loopTick envA s0).1.lastPower1 + (loopTick envA s0).1.lastPower2 ∧
    ∀ t, Action.httpPostData t ∈ (loopTick envA s0).2 →
      t.totalCurrent = t.current1 + t.current2 ∧
      t.power1 = t.voltage * t.current1 ∧
      t.power2 = t.voltage * t.current2 ∧
      t.totalPower = t.power1 + t.power2 :=
  totals_exclude_channel3 envA s0 (by decide)

theorem telemetry_pushes_snapshot_zero_before_refresh_witness :
    (∀ t, Action.httpPostData t ∈ (loopTick envA s0).2 →
       t = mkTelemetry (snapshotAfterDisplay envA s0)) ∧
    (usub32 envA.now s0.previousMillis < printPeriod →
       mkTelemetry (loopTick envA s0).1 = mkTelemetry s0) ∧
    ∀ (envs : List TickEnv) (r1 r2 c : Bool),
      Action.displayRefresh ∉ (run envs (initState r1 r2 c)).2 →
      ∀ t, Action.httpPostData t ∈ (run envs (initState r1 r2 c)).2 →
        t = zeroTelemetry :=
  telemetry_pushes_snapshot_zero_before_refresh envA s0

end Meter
